import Mathlib

/-!
Shallow embedding of `weather.py` (repository ppps/ms-weather) and proofs
about its specification claims.

Python strings are modelled as `List Char`; Python exceptions as the
`PyErr` type, with fallible code returning `Except PyErr _`; JSON values
as the `Json` inductive; the HTTP transport as an oracle function
`Request → HttpResponse` supplied to each fetcher, together with a trace
of the requests the fetcher actually issued.
-/

namespace Weather

/-- Python strings, modelled as lists of characters. -/
abbrev Str := List Char

/-- Convert a Lean string literal to the `Str` model. -/
def chars (s : String) : Str := s.toList

/-- The Python exceptions that the embedded code can raise. -/
inductive PyErr where
  | nameError
  | keyError
  | typeError
  | valueError
  | stopIteration
  | jsonDecodeError
  | systemExit (code : Int)
deriving DecidableEq

/-- JSON values as produced by `response.json()` (numbers restricted to
integers, which is all these claims need). -/
inductive Json where
  | null
  | bool (b : Bool)
  | num (n : Int)
  | str (s : Str)
  | arr (elems : List Json)
  | obj (fields : List (Str × Json))

/-- Python subscription `j[k]` on a decoded JSON value: a `KeyError` when
the key is missing from a dict, a `TypeError` when the value is not a
dict at all. -/
def jsonGet (j : Json) (k : Str) : Except PyErr Json :=
  match j with
  | .obj fields =>
    match fields.lookup k with
    | some v => .ok v
    | none => .error .keyError
  | _ => .error .typeError

/-- An outbound HTTP request: the URL and the query parameters. -/
structure Request where
  url : Str
  params : List (Str × Str)

/-- The transport-level view of an HTTP response: the success flag
(`response.ok`) and the result of `response.json()` — either a decoded
value or the `JSONDecodeError` the decode raises. -/
structure HttpResponse where
  ok : Bool
  json : Except PyErr Json

/-- A fetcher result: the Python outcome (returned value or raised
exception) paired with the trace of HTTP requests actually issued. -/
abbrev Fetched (α : Type) := Except PyErr α × List Request

/-- The query parameters of the Dark Sky request
(`exclude=','.join([...])`, `lang=en`, `units=uk2`). -/
def dark_sky_params : List (Str × Str) :=
  [(chars "exclude", chars "currently,minutely,hourly"),
   (chars "lang", chars "en"),
   (chars "units", chars "uk2")]

/-- The formatted Dark Sky URL
`ds_url.format(key=api_key, lat=latitude, lon=longitude)`. -/
def dark_sky_url (api_key latitude longitude : Str) : Str :=
  chars "https://api.darksky.net/forecast/" ++ api_key ++ chars "/"
    ++ latitude ++ chars "," ++ longitude

/-- The single GET request `make_dark_sky_request` issues. -/
def dark_sky_request (api_key latitude longitude : Str) : Request :=
  { url := dark_sky_url api_key latitude longitude
    params := dark_sky_params }

/-- Embedding of `make_dark_sky_request` (weather.py lines 149-165): it
issues one GET and then returns `response.json()` unconditionally — the
code never consults `response.ok` and never catches a decode error, so a
`JSONDecodeError` propagates. -/
def make_dark_sky_request (api_key latitude longitude : Str)
    (http : Request → HttpResponse) : Fetched Json :=
  let req := dark_sky_request api_key latitude longitude
  let response := http req
  (response.json, [req])

/-- The names bound at module level in `weather.py`: its eight imported
names, its six module-level assignments, and its twelve function
definitions.  Neither `api_key` (read at lines 170 and 226) nor
`getpass` (read at line 127) appears among them. -/
def weather_module_bindings : List Str :=
  [chars "subprocess", chars "date", chars "timedelta", chars "Pool",
   chars "sys", chars "keyring", chars "requests", chars "pendulum",
   chars "weather_types", chars "forecast_codes", chars "urls",
   chars "location_tuples", chars "location_dicts",
   chars "locations_lat_lon",
   chars "get_api_key", chars "parse_lastmodified",
   chars "make_dark_sky_request", chars "fetch_forecast",
   chars "parse_forecast", chars "build_weather_string",
   chars "add_daily_forecast_to_dict", chars "date_string",
   chars "fetch_uk_outlook", chars "asrun", chars "set_frame_contents",
   chars "most_common_condition"]

/-- Whether a global name resolves inside a function body of
`weather.py` (local names aside); an unresolvable name raises
`NameError` when evaluated. -/
def module_binds (n : Str) : Bool := weather_module_bindings.contains n

/-- The module-level binding of the name `api_key` in `weather.py`:
`none`, because no statement of the module ever assigns it (it is only
ever read, at lines 170 and 226).  The fetchers below take the binding
as a parameter so that their behaviour under a hypothetical bound key
can also be stated. -/
def weather_api_key : Option Str := none

/-- URL pieces from the `urls` dict (weather.py lines 68-72), with the
`.format(location=...)` substitution applied. -/
def forecast_url (location_code : Str) : Str :=
  chars "http://datapoint.metoffice.gov.uk/public/data/val/wxfcs/all/json/"
    ++ location_code

/-- The regional-summary URL with `location=515` substituted. -/
def summary_url : Str :=
  chars "http://datapoint.metoffice.gov.uk/public/data/txt/wxfcs/regionalforecast/json/515"

/-- The single GET request `fetch_forecast` would issue. -/
def forecast_request (key location_code target_date : Str) : Request :=
  { url := forecast_url location_code
    params := [(chars "key", key), (chars "res", chars "daily"),
               (chars "time", target_date)] }

/-- The single GET request `fetch_uk_outlook` would issue. -/
def summary_request (key : Str) : Request :=
  { url := summary_url
    params := [(chars "key", key)] }

/-- The chained subscriptions
`response.json()['SiteRep']['DV']['Location']['Period']['Rep']`
of weather.py line 174. -/
def extract_rep (body : Json) : Except PyErr Json := do
  let siteRep ← jsonGet body (chars "SiteRep")
  let dv ← jsonGet siteRep (chars "DV")
  let location ← jsonGet dv (chars "Location")
  let period ← jsonGet location (chars "Period")
  jsonGet period (chars "Rep")

/-- Whether an element `f` satisfies a generator condition of the shape
`f[key] == target` without raising.  (A non-dict `f` raises a
`TypeError`, a dict without the key raises `KeyError`; both are handled
in `generator_next`, not here.) -/
def generator_entry (key target : Str) (f : Json) : Bool :=
  match jsonGet f key with
  | .ok (.str s) => s = target
  | _ => false

/-- `next(f for f in elems if f[key] == target)`: walks the list; a
failing subscription propagates its exception, an exhausted generator
raises `StopIteration`. -/
def generator_next (key target : Str) : List Json → Except PyErr Json
  | [] => .error .stopIteration
  | f :: rest =>
    match jsonGet f key with
    | .error e => .error e
    | .ok v =>
      match v with
      | .str s => if s = target then .ok f else generator_next key target rest
      | _ => generator_next key target rest

/-- The generator condition of weather.py line 175: `f['$'] == 'Day'`. -/
def day_entry (f : Json) : Bool := generator_entry (chars "$") (chars "Day") f

/-- `next(f for f in conditions if f['$'] == 'Day')` of line 175. -/
def find_day : List Json → Except PyErr Json :=
  generator_next (chars "$") (chars "Day")

/-- Embedding of `fetch_forecast` (weather.py lines 168-176),
parameterised by the module-level binding of `api_key`.  Evaluation
order follows the source: the URL is built first, then the `params`
dict evaluates the global name `api_key` — raising `NameError` before
any request is issued when the name is unbound — then the GET is
issued and the structural extraction runs on the decoded body.
Iterating a non-list `Rep` value is modelled as a `TypeError`. -/
def fetch_forecast (apiKeyBinding : Option Str)
    (http : Request → HttpResponse)
    (location_code target_date : Str) : Fetched Json :=
  match apiKeyBinding with
  | none => (.error .nameError, [])
  | some key =>
    let req := forecast_request key location_code target_date
    let response := http req
    match response.json with
    | .error e => (.error e, [req])
    | .ok body =>
      match extract_rep body with
      | .error e => (.error e, [req])
      | .ok (.arr conditions) => (find_day conditions, [req])
      | .ok _ => (.error .typeError, [req])

/-- The chained subscriptions
`response.json()['RegionalFcst']['FcstPeriods']['Period']`
of weather.py line 228. -/
def extract_periods (body : Json) : Except PyErr Json := do
  let regional ← jsonGet body (chars "RegionalFcst")
  let fcst ← jsonGet regional (chars "FcstPeriods")
  jsonGet fcst (chars "Period")

/-- The generator condition of weather.py line 229:
`p['id'] == 'day3to5'`. -/
def outlook_entry (p : Json) : Bool :=
  generator_entry (chars "id") (chars "day3to5") p

/-- `next(p for p in periods if p['id'] == 'day3to5')` of line 229. -/
def find_outlook_period : List Json → Except PyErr Json :=
  generator_next (chars "id") (chars "day3to5")

/-- Embedding of `fetch_uk_outlook` (weather.py lines 224-231),
parameterised like `fetch_forecast` by the `api_key` binding; after the
period is found, `summary_dict['Paragraph']['$']` is extracted and its
string payload returned (a non-string payload is returned as-is by the
Python code, so the embedding returns the JSON value). -/
def fetch_uk_outlook (apiKeyBinding : Option Str)
    (http : Request → HttpResponse) : Fetched Json :=
  match apiKeyBinding with
  | none => (.error .nameError, [])
  | some key =>
    let req := summary_request key
    let response := http req
    match response.json with
    | .error e => (.error e, [req])
    | .ok body =>
      match extract_periods body with
      | .error e => (.error e, [req])
      | .ok (.arr periods) =>
        (do
          let summary_dict ← find_outlook_period periods
          let paragraph ← jsonGet summary_dict (chars "Paragraph")
          jsonGet paragraph (chars "$"),
         [req])
      | .ok _ => (.error .typeError, [req])

/-- The system keychain, modelled as an association list from
(service, username) pairs to stored passwords; `set_password` prepends,
which shadows any earlier entry under the same pair. -/
structure Keyring where
  entries : List ((Str × Str) × Str)

/-- `keyring.get_password(service, username)`. -/
def keyring_get_password (kr : Keyring) (service username : Str) : Option Str :=
  kr.entries.lookup (service, username)

/-- `keyring.set_password(service, username, key)`. -/
def keyring_set_password (kr : Keyring) (service username key : Str) : Keyring :=
  { entries := ((service, username), key) :: kr.entries }

/-- Embedding of `get_api_key` (weather.py lines 112-131).  `userEntry`
models the interactive `getpass.getpass` call: `.ok s` is an entered
key, `.error ()` is a `KeyboardInterrupt` (which the code turns into
`sys.exit(1)`).  Evaluating the name `getpass` consults the module
bindings first: `weather.py` never imports `getpass`, so reaching that
line raises `NameError`, which the `except KeyboardInterrupt` clause
does not catch.  On success the function returns the key together with
the (possibly updated) keychain. -/
def get_api_key (kr : Keyring) (userEntry : Except Unit Str)
    (service username : Str) : Except PyErr (Str × Keyring) :=
  match keyring_get_password kr service username with
  | some key => .ok (key, kr)
  | none =>
    if module_binds (chars "getpass") then
      match userEntry with
      | .error () => .error (.systemExit 1)
      | .ok key => .ok (key, keyring_set_password kr service username key)
    else
      .error .nameError

/-- Python `str.replace('GMT', 'UTC')` specialised to the call at
weather.py line 145: every occurrence of `GMT` is replaced by `UTC`,
scanning left to right. -/
def replaceGMT : Str → Str
  | 'G' :: 'M' :: 'T' :: rest => 'U' :: 'T' :: 'C' :: replaceGMT rest
  | c :: rest => c :: replaceGMT rest
  | [] => []

/-- Split a string on a separator character (occurrences of the
separator delimit fields; adjacent separators yield empty fields). -/
def splitOnChar (sep : Char) (s : Str) : List Str :=
  s.foldr
    (fun c acc =>
      if c = sep then [] :: acc
      else
        match acc with
        | w :: ws => (c :: w) :: ws
        | [] => [[c]])
    [[]]

/-- The numeric value of a list of decimal digit characters. -/
def digitsToNat (s : Str) : Nat :=
  s.foldl (fun a c => a * 10 + (c.toNat - 48)) 0

/-- Parse a nonempty all-digit token as a natural number. -/
def parseDigits (s : Str) : Option Nat :=
  if s ≠ [] ∧ s.all Char.isDigit then some (digitsToNat s) else none

/-- English month-name abbreviations as accepted by the dateutil
tokenizer (the RFC-1123 form uses these three-letter names). -/
def monthNumber (s : Str) : Option Nat :=
  [(chars "Jan", 1), (chars "Feb", 2), (chars "Mar", 3),
   (chars "Apr", 4), (chars "May", 5), (chars "Jun", 6),
   (chars "Jul", 7), (chars "Aug", 8), (chars "Sep", 9),
   (chars "Oct", 10), (chars "Nov", 11), (chars "Dec", 12)].lookup s

/-- Interpretation of the timezone token: `UTC` is the fixed offset 0,
while `GMT` resolves through the platform's local zone — dateutil may
read it as Europe/London (offset `gmtOffset`, e.g. 3600 during British
Summer Time), the ambiguity recorded in the weather.py comment at
lines 142-144 (dateutil issue 370).  Any other token fails. -/
def zoneOffset (gmtOffset : Int) (tok : Str) : Option Int :=
  if tok = chars "UTC" then some 0
  else if tok = chars "GMT" then some gmtOffset
  else none

/-- Days from 1970-01-01 of the civil date y-m-d (proleptic Gregorian,
Hinnant's algorithm over integer arithmetic). -/
def daysFromCivil (y m d : Int) : Int :=
  let yAdj := if m ≤ 2 then y - 1 else y
  let era := (if 0 ≤ yAdj then yAdj else yAdj - 399) / 400
  let yoe := yAdj - era * 400
  let doy := (153 * (if 2 < m then m - 3 else m + 9) + 2) / 5 + d - 1
  let doe := yoe * 365 + yoe / 4 - yoe / 100 + doy
  era * 146097 + doe - 719468

/-- Unix epoch seconds of the UTC instant y-m-d h:mi:s. -/
def utc_epoch (y m d h mi s : Int) : Int :=
  daysFromCivil y m d * 86400 + h * 3600 + mi * 60 + s

/-- Model of the dateutil fallback that `pendulum.parse` uses on
RFC-1123 `Last-Modified` strings (`Www, DD Mon YYYY HH:MM:SS ZZZ`):
tokenize on spaces, drop the weekday token (which must end in the
comma), parse day, month name, year and `HH:MM:SS`, and resolve the
zone token via `zoneOffset`.  The result is the denoted instant in Unix
epoch seconds; `none` models a `ParserError`. -/
def pendulum_parse (gmtOffset : Int) (s : Str) : Option Int :=
  match (splitOnChar ' ' s).filter (fun w => w ≠ []) with
  | [weekdayTok, dayTok, monTok, yearTok, timeTok, zoneTok] =>
    if weekdayTok.getLast? = some ',' then
      match parseDigits dayTok, monthNumber monTok, parseDigits yearTok,
            splitOnChar ':' timeTok with
      | some d, some m, some y, [hTok, miTok, secTok] =>
        match parseDigits hTok, parseDigits miTok, parseDigits secTok,
              zoneOffset gmtOffset zoneTok with
        | some h, some mi, some sec, some off =>
          some (utc_epoch y m d h mi sec - off)
        | _, _, _, _ => none
      | _, _, _, _ => none
    else none
  | _ => none

/-- Embedding of `parse_lastmodified` (weather.py lines 134-146):
replace every `GMT` by `UTC`, then parse.  The `gmtOffset` parameter is
the offset the surrounding platform would assign to a bare `GMT`
token. -/
def parse_lastmodified (gmtOffset : Int) (date_string : Str) : Option Int :=
  pendulum_parse gmtOffset (replaceGMT date_string)

/-- Strip leading and trailing whitespace (Python `int` accepts it). -/
def stripSpaces (s : Str) : Str :=
  ((s.dropWhile Char.isWhitespace).reverse.dropWhile Char.isWhitespace).reverse

/-- Python `int(s)` on a string: optional surrounding whitespace, an
optional sign, then a nonempty run of decimal digits; anything else
raises `ValueError`.  (Underscore digit grouping is not modelled.) -/
def pyInt (s : Str) : Except PyErr Int :=
  match stripSpaces s with
  | '-' :: ds =>
    if ds ≠ [] ∧ ds.all Char.isDigit then .ok (-(digitsToNat ds : Int))
    else .error .valueError
  | '+' :: ds =>
    if ds ≠ [] ∧ ds.all Char.isDigit then .ok (digitsToNat ds : Int)
    else .error .valueError
  | ds =>
    if ds ≠ [] ∧ ds.all Char.isDigit then .ok (digitsToNat ds : Int)
    else .error .valueError

/-- The dict produced by `parse_forecast`, restricted to the six keys
that `build_weather_string` reads (field names transliterate the dict
keys: `Weather type`, `Max temp`, `Feels like`, `Wind speed`,
`Wind direction`, `Precipitation probability`). -/
structure ParsedDict where
  weatherType : Str
  maxTemp : Str
  feelsLike : Str
  windSpeed : Str
  windDirection : Str
  precipProb : Str

/-- The `temp_string` variable of weather.py lines 198-200:
`parsed_dict['Max temp'] + ' max'`, extended by
`', feels like {}'.format(parsed_dict['Feels like'])` exactly when the
two strings compare unequal with `!=`. -/
def temp_string (d : ParsedDict) : Str :=
  let t := d.maxTemp ++ chars " max"
  if d.feelsLike ≠ d.maxTemp then t ++ chars ", feels like " ++ d.feelsLike
  else t

/-- `precip_chance.replace('%', '')` — removal of every percent sign. -/
def dropPercent (s : Str) : Str := s.filter (fun c => c ≠ '%')

/-- The `precip_string` variable of weather.py lines 202-206: empty
when `int(precip_chance.replace('%', ''))` is below 20, otherwise
`'\n{} chance of rain'.format(precip_chance)`; the `int` call can raise
`ValueError`. -/
def precip_string (precip_chance : Str) : Except PyErr Str := do
  let n ← pyInt (dropPercent precip_chance)
  if n < 20 then pure []
  else pure (chars "\n" ++ precip_chance ++ chars " chance of rain")

/-- Embedding of `build_weather_string` (weather.py lines 193-211): the
template `'{Weather type}\n{temp}\nWind {Wind speed} {Wind direction}{precip}'`
rendered with `temp = temp_string` and `precip = precip_string`. -/
def build_weather_string (d : ParsedDict) : Except PyErr Str := do
  let precip ← precip_string d.precipProb
  pure (d.weatherType ++ chars "\n" ++ temp_string d ++ chars "\nWind "
        ++ d.windSpeed ++ chars " " ++ d.windDirection ++ precip)

/-- The literal `\nWind {Wind speed} {Wind direction}` line of the
rendered template. -/
def wind_line (d : ParsedDict) : Str :=
  chars "\nWind " ++ d.windSpeed ++ chars " " ++ d.windDirection

/-- The rendered precipitation clause for a given probability string. -/
def precip_clause (precip_chance : Str) : Str :=
  chars "\n" ++ precip_chance ++ chars " chance of rain"

/-- Whether `pat` occurs at the head of `s`. -/
def runAt : Str → Str → Bool
  | [], _ => true
  | _ :: _, [] => false
  | p :: ps, c :: cs => p = c && runAt ps cs

/-- Whether `pat` occurs contiguously anywhere inside `s`. -/
def containsRun (pat : Str) : Str → Bool
  | [] => pat.isEmpty
  | c :: rest => runAt pat (c :: rest) || containsRun pat rest

/-- Whether a successfully built report contains the feels-like
clause text. -/
def reportHasFeelsClause (r : Except PyErr Str) : Bool :=
  match r with
  | .ok s => containsRun (chars ", feels like") s
  | .error _ => false

/-- The numeric reading of a temperature value string, following the
words of the spec (a value "differs numerically" from another): a
nonempty run of decimal digits, an optional fractional part, the unit
suffix ignored.  The result `(m, k)` denotes the exact rational
`m / 10 ^ k`.  This definition follows the spec, not the code — the
code at weather.py line 199 compares the raw strings instead. -/
def spec_numeric_value (s : Str) : Option (Nat × Nat) :=
  let intPart := s.takeWhile Char.isDigit
  let rest := s.dropWhile Char.isDigit
  if intPart = [] then none
  else
    match rest with
    | '.' :: r2 =>
      let fracPart := r2.takeWhile Char.isDigit
      if fracPart = [] then none
      else some (digitsToNat intPart * 10 ^ fracPart.length
                 + digitsToNat fracPart, fracPart.length)
    | _ => some (digitsToNat intPart, 0)

/-- Whether two numeric readings denote the same rational number
(cross multiplication of the mantissa/power-of-ten forms); readings
that failed to parse compare unequal. -/
def numeric_eq : Option (Nat × Nat) → Option (Nat × Nat) → Bool
  | some (m1, k1), some (m2, k2) => m1 * 10 ^ k2 = m2 * 10 ^ k1
  | _, _ => false

/-- The opening brace character, as used by unresolved `str.format`
placeholders. -/
def lbrace : Char := Char.ofNat 123

/-- The closing brace character. -/
def rbrace : Char := Char.ofNat 125

/-- Whether a string is free of format braces. -/
def brace_free (s : Str) : Bool :=
  s.all (fun c => c != lbrace && c != rbrace)

/-- Whether all six field values of a parsed dict are brace-free. -/
def fields_brace_free (d : ParsedDict) : Bool :=
  brace_free d.weatherType && brace_free d.maxTemp && brace_free d.feelsLike
    && brace_free d.windSpeed && brace_free d.windDirection
    && brace_free d.precipProb

/-- A daily forecast as far as window selection is concerned: its
timestamp, in Unix epoch seconds (the provider stamps each day at UTC
midnight). -/
structure ForecastDay where
  time : Int

/-- Ordering of forecasts by timestamp. -/
def fdLE (a b : ForecastDay) : Prop := a.time ≤ b.time

instance : DecidableRel fdLE := fun a b => Int.decLe a.time b.time

instance : IsTotal ForecastDay fdLE := ⟨fun a b => Int.le_total a.time b.time⟩

instance : IsTrans ForecastDay fdLE := ⟨fun _ _ _ h1 h2 => le_trans h1 h2⟩

/-- Modelled from the spec: `to_midnight` truncates an instant to
00:00:00 of its (UTC) day.  `select_window` and `to_midnight` appear in
the spec but in no function of `src/weather.py`. -/
def to_midnight (t : Int) : Int := t - t.emod 86400

/-- The lower bound of the selection window: midnight of the start
instant plus one day. -/
def window_lo (start : Int) : Int := to_midnight start + 86400

/-- The upper bound of the selection window: midnight of the start
instant plus `num_days` days. -/
def window_hi (start : Int) (num_days : Nat) : Int :=
  to_midnight start + 86400 * num_days

/-- Whether a forecast timestamp lies in the closed window
`[midnight(start) + 1 day, midnight(start) + num_days days]`. -/
def in_window (start : Int) (num_days : Nat) (f : ForecastDay) : Bool :=
  window_lo start ≤ f.time && f.time ≤ window_hi start num_days

/-- Modelled from the spec: `select_window(daily_forecasts,
start_instant, num_days)` sorts the forecasts ascending by timestamp,
normalizes the start instant to midnight, and keeps exactly the
forecasts whose timestamp falls in the closed window
`[midnight(start) + 1 day, midnight(start) + num_days days]`.  The
function is absent from `src/weather.py` (the repository tests exercise
a related `next_days`, likewise absent). -/
def select_window (daily_forecasts : List ForecastDay)
    (start_instant : Int) (num_days : Nat) : List ForecastDay :=
  (daily_forecasts.insertionSort fdLE).filter (in_window start_instant num_days)

/-- Python `date.weekday()` over the days-since-1970-01-01 model:
Monday is 0 and Sunday is 6; 1970-01-01 was a Thursday (3). -/
def weekday (d : Int) : Int := (d + 3).emod 7

/-- Digit character of a value below 10. -/
def digitChar (n : Nat) : Char := Char.ofNat (48 + n)

/-- Decimal digits of a natural number, via explicit fuel (the fuel
`n + 1` always suffices). -/
def natDigitsAux : Nat → Nat → Str
  | 0, _ => []
  | fuel + 1, n =>
    if n < 10 then [digitChar n]
    else natDigitsAux fuel (n / 10) ++ [digitChar (n % 10)]

/-- Decimal digit string of a natural number. -/
def natDigits (n : Nat) : Str := natDigitsAux (n + 1) n

/-- Left-pad a digit string with zeros to width `k`. -/
def pad (k : Nat) (s : Str) : Str := List.replicate (k - s.length) '0' ++ s

/-- Civil date (year, month, day) of a days-since-1970-01-01 count
(proleptic Gregorian, Hinnant's algorithm). -/
def civilFromDays (z : Int) : Int × Int × Int :=
  let z2 := z + 719468
  let era := (if 0 ≤ z2 then z2 else z2 - 146096) / 146097
  let doe := z2 - era * 146097
  let yoe := (doe - doe / 1460 + doe / 36524 - doe / 146096) / 365
  let y := yoe + era * 400
  let doy := doe - (365 * yoe + yoe / 4 - yoe / 100)
  let mp := (5 * doy + 2) / 153
  let dayOfMonth := doy - (153 * mp + 2) / 5 + 1
  let m := if mp < 10 then mp + 3 else mp - 9
  (if m ≤ 2 then y + 1 else y, m, dayOfMonth)

/-- Python `date.isoformat()` over the day-count model: the
zero-padded `YYYY-MM-DD` rendering. -/
def isoformat (d : Int) : Str :=
  match civilFromDays d with
  | (y, m, dayOfMonth) =>
    pad 4 (natDigits y.toNat) ++ chars "-" ++ pad 2 (natDigits m.toNat)
      ++ chars "-" ++ pad 2 (natDigits dayOfMonth.toNat)

/-- Embedding of `date_string` (weather.py lines 220-221):
`d.isoformat() + 'T00:00:00Z'`. -/
def date_string (d : Int) : Str := isoformat d ++ chars "T00:00:00Z"

/-- Embedding of the `date_list` construction of the `__main__` block
(weather.py lines 265-268): `[date_string(today + timedelta(1))]`,
extended by `date_string(today + timedelta(2))` when
`today.weekday() == 4` (Friday). -/
def date_list (today : Int) : List Str :=
  let l := [date_string (today + 1)]
  if weekday today = 4 then l ++ [date_string (today + 2)] else l

/-- Whether a Python outcome is a raised exception (as opposed to a
returned value). -/
def raisedB {α : Type} (r : Except PyErr α) : Bool :=
  match r with
  | .error _ => true
  | .ok _ => false

/-- Whether a decoded forecast body contains the full
`SiteRep/DV/Location/Period/Rep` path with at least one entry whose
`$` field equals `Day`. -/
def has_day_rep (body : Json) : Bool :=
  match extract_rep body with
  | .ok (.arr conditions) => conditions.any day_entry
  | _ => false

/-- Whether a decoded outlook body contains the full
`RegionalFcst/FcstPeriods/Period` path with at least one period whose
`id` field equals `day3to5`. -/
def has_outlook_period (body : Json) : Bool :=
  match extract_periods body with
  | .ok (.arr periods) => periods.any outlook_entry
  | _ => false

/-- A `next` over a generator none of whose elements satisfies the
condition raises (either the subscription's own exception, or
`StopIteration` at exhaustion) — it never returns a value. -/
theorem generator_next_raises (key target : Str) :
    ∀ elems : List Json, elems.any (generator_entry key target) = false →
      raisedB (generator_next key target elems) = true := by
  intro elems
  induction elems with
  | nil => intro _; rfl
  | cons f rest ih =>
    intro h
    rw [List.any_cons, Bool.or_eq_false_iff] at h
    obtain ⟨h1, h2⟩ := h
    rw [generator_entry] at h1
    show raisedB (generator_next key target (f :: rest)) = true
    rw [generator_next]
    cases hg : jsonGet f key with
    | error e => rfl
    | ok v =>
      rw [hg] at h1
      cases v with
      | str s =>
        have hs : s ≠ target := by simpa using h1
        show raisedB (if s = target then Except.ok f
                      else generator_next key target rest) = true
        rw [if_neg hs]
        exact ih h2
      | null => exact ih h2
      | bool b => exact ih h2
      | num n => exact ih h2
      | arr xs => exact ih h2
      | obj fields => exact ih h2

/-- `brace_free` distributes over concatenation. -/
theorem brace_free_append (a b : Str) :
    brace_free (a ++ b) = (brace_free a && brace_free b) := by
  simp [brace_free, List.all_append]

/-- Closed form of `build_weather_string` once the precipitation
probability has parsed as the integer `n`: the rendered template, with
the precipitation clause present exactly on `20 ≤ n`. -/
theorem build_weather_string_closed (d : ParsedDict) (n : Int)
    (h : pyInt (dropPercent d.precipProb) = .ok n) :
    build_weather_string d
      = .ok (d.weatherType ++ chars "\n" ++ temp_string d ++ wind_line d
             ++ (if n < 20 then [] else precip_clause d.precipProb)) := by
  rw [build_weather_string, precip_string]
  rw [show (do
        let n ← pyInt (dropPercent d.precipProb)
        if n < 20 then pure []
        else pure (chars "\n" ++ d.precipProb ++ chars " chance of rain")
        : Except PyErr Str)
      = (pyInt (dropPercent d.precipProb)).bind (fun n =>
          if n < 20 then pure []
          else pure (chars "\n" ++ d.precipProb ++ chars " chance of rain"))
      from rfl, h]
  show ((if n < 20 then pure []
         else pure (chars "\n" ++ d.precipProb
                    ++ chars " chance of rain") : Except PyErr Str).bind _) = _
  split
  · simp [wind_line, pure, Except.pure, Except.bind]
  · simp [wind_line, precip_clause, pure, Except.pure, Except.bind,
          List.append_assoc]

/-- A decoded body used to exercise the non-OK-status path of
`make_dark_sky_request`. -/
def c1_body : Json := Json.obj [(chars "daily", Json.null)]

/-- A transport whose response has a non-success status but a body that
decodes fine. -/
def c1_http_bad_status : Request → HttpResponse :=
  fun _ => { ok := false, json := .ok c1_body }

/-- A transport whose response has a success status but a body on which
`response.json()` raises `JSONDecodeError`. -/
def c1_http_bad_body : Request → HttpResponse :=
  fun _ => { ok := true, json := .error .jsonDecodeError }

/-- C1: the claim says `make_dark_sky_request` returns the absence
value (None) on a non-success HTTP status and on a JSON decode failure.
The code (weather.py lines 149-165) does neither: it never consults
`response.ok`, so a non-success response's decoded body is returned
as-is (here a non-null object, not an absence value), and it wraps
`response.json()` in no handler, so a decode failure propagates the
`JSONDecodeError` exception.  The repository's own tests
(tests.py lines 231-246) assert `None` for both cases, so the code
contradicts its tests. -/
theorem make_dark_sky_request_not_absent :
    (make_dark_sky_request (chars "k") (chars "1") (chars "2")
        c1_http_bad_status).1 = .ok c1_body
    ∧ c1_body ≠ Json.null
    ∧ (make_dark_sky_request (chars "k") (chars "1") (chars "2")
        c1_http_bad_body).1 = .error .jsonDecodeError := by
  refine ⟨rfl, ?_, rfl⟩
  intro hnull
  exact Json.noConfusion hnull

/-- C2: the module never binds the name `api_key`, so both
`fetch_forecast` and `fetch_uk_outlook` raise `NameError` when their
`params` dict evaluates that global — before any HTTP request is
issued (the request trace is empty) — for every transport and every
argument; neither can ever return a value. -/
theorem fetch_raises_nameError_before_request :
    module_binds (chars "api_key") = false
    ∧ weather_api_key = none
    ∧ (∀ (http : Request → HttpResponse) (location_code target_date : Str),
        fetch_forecast weather_api_key http location_code target_date
          = (.error .nameError, []))
    ∧ (∀ http : Request → HttpResponse,
        fetch_uk_outlook weather_api_key http = (.error .nameError, [])) :=
  ⟨rfl, rfl, fun _ _ _ => rfl, fun _ => rfl⟩

/-- A keychain with no entry at all. -/
def empty_keyring : Keyring := { entries := [] }

/-- A keychain holding a key under (darksky, ppps). -/
def stocked_keyring : Keyring :=
  { entries := [((chars "darksky", chars "ppps"), chars "stored-key")] }

/-- C3: the claim (and the function's own docstring, weather.py lines
112-120) says that on a missing key `get_api_key` prompts once,
persists the entered value and returns it.  In fact the prompt line
reads the name `getpass`, which the module never imports, so the
missing-key path raises `NameError` (not caught by the
`except KeyboardInterrupt` clause) and nothing is prompted or
persisted.  The stored-key path does return the stored value without
prompting, as claimed. -/
theorem get_api_key_missing_key_raises :
    module_binds (chars "getpass") = false
    ∧ get_api_key empty_keyring (.ok (chars "entered-key"))
        (chars "darksky") (chars "ppps") = .error .nameError
    ∧ get_api_key stocked_keyring (.ok (chars "entered-key"))
        (chars "darksky") (chars "ppps")
        = .ok (chars "stored-key", stocked_keyring) :=
  ⟨rfl, rfl, rfl⟩

/-- C4: when an HTTP body decodes but the expected structure is missing
— for `fetch_forecast`, no `SiteRep/DV/Location/Period/Rep` path or no
entry with `$` equal to `Day`; for `fetch_uk_outlook`, no
`RegionalFcst/FcstPeriods/Period` path or no period with id `day3to5`
— the call raises (a `KeyError`/`TypeError` from the subscriptions or
a `StopIteration` from the exhausted generator) rather than returning
any value.  Stated over a hypothetically bound `api_key`, since the
structural extraction is unreachable otherwise (see C2). -/
theorem schema_failure_raises (key location_code target_date : Str)
    (http : Request → HttpResponse) (forecastBody outlookBody : Json)
    (hf : (http (forecast_request key location_code target_date)).json
            = .ok forecastBody)
    (hd : has_day_rep forecastBody = false)
    (ho : (http (summary_request key)).json = .ok outlookBody)
    (hp : has_outlook_period outlookBody = false) :
    raisedB (fetch_forecast (some key) http location_code target_date).1 = true
    ∧ raisedB (fetch_uk_outlook (some key) http).1 = true := by
  constructor
  · rw [fetch_forecast]
    split
    · rfl
    case _ body hj =>
      have hb : body = forecastBody := Except.ok.inj (hj.symm.trans hf)
      subst hb
      rw [has_day_rep] at hd
      split
      · rfl
      case _ conditions he =>
        rw [he] at hd
        exact generator_next_raises (chars "$") (chars "Day") conditions hd
      case _ v he hne => rfl
  · rw [fetch_uk_outlook]
    split
    · rfl
    case _ body hj =>
      have hb : body = outlookBody := Except.ok.inj (hj.symm.trans ho)
      subst hb
      rw [has_outlook_period] at hp
      split
      · rfl
      case _ periods he =>
        rw [he] at hp
        have hr := generator_next_raises (chars "id") (chars "day3to5")
          periods hp
        show raisedB ((generator_next (chars "id") (chars "day3to5")
          periods).bind _) = true
        cases hn : generator_next (chars "id") (chars "day3to5") periods with
        | error e => rfl
        | ok j =>
          rw [hn] at hr
          exact absurd hr (by simp [raisedB])
      case _ v he hne => rfl

/-- A transport answering every request with an OK status and an empty
JSON object — a body with none of the expected structure. -/
def c4_http_empty : Request → HttpResponse :=
  fun _ => { ok := true, json := .ok (Json.obj []) }

/-- Witness for C4: at the concrete transport returning the empty
object, both fetchers raise. -/
theorem schema_failure_raises_witness :
    raisedB (fetch_forecast (some (chars "k")) c4_http_empty
        (chars "353595") (chars "2017-05-30T00:00:00Z")).1 = true
    ∧ raisedB (fetch_uk_outlook (some (chars "k")) c4_http_empty).1 = true :=
  schema_failure_raises (chars "k") (chars "353595")
    (chars "2017-05-30T00:00:00Z") c4_http_empty
    (Json.obj []) (Json.obj []) rfl rfl rfl rfl

/-- C5: once the precipitation probability string has parsed as the
integer `n`, the built report carries the `{p}% chance of rain` clause
exactly when `20 ≤ n` — the clause at 20 and above, no clause below
20. -/
theorem precip_clause_threshold (d : ParsedDict) (n : Int)
    (h : pyInt (dropPercent d.precipProb) = .ok n) :
    (20 ≤ n → build_weather_string d
        = .ok (d.weatherType ++ chars "\n" ++ temp_string d ++ wind_line d
               ++ precip_clause d.precipProb))
    ∧ (n < 20 → build_weather_string d
        = .ok (d.weatherType ++ chars "\n" ++ temp_string d
               ++ wind_line d)) := by
  have hc := build_weather_string_closed d n h
  constructor
  · intro h20
    rw [hc, if_neg (by omega)]
  · intro h19
    rw [hc, if_pos h19, List.append_nil]

/-- A parsed dict whose precipitation probability is exactly 20%. -/
def precip20_dict : ParsedDict :=
  { weatherType := chars "Cloudy", maxTemp := chars "18°C"
    feelsLike := chars "18°C", windSpeed := chars "7mph"
    windDirection := chars "SW", precipProb := chars "20%" }

/-- A parsed dict whose precipitation probability is 19%. -/
def precip19_dict : ParsedDict :=
  { weatherType := chars "Cloudy", maxTemp := chars "18°C"
    feelsLike := chars "18°C", windSpeed := chars "7mph"
    windDirection := chars "SW", precipProb := chars "19%" }

/-- Witness for C5: at 20% the clause is present, at 19% it is
absent. -/
theorem precip_clause_threshold_witness :
    build_weather_string precip20_dict
      = .ok (precip20_dict.weatherType ++ chars "\n"
             ++ temp_string precip20_dict ++ wind_line precip20_dict
             ++ precip_clause precip20_dict.precipProb)
    ∧ build_weather_string precip19_dict
      = .ok (precip19_dict.weatherType ++ chars "\n"
             ++ temp_string precip19_dict ++ wind_line precip19_dict) :=
  ⟨(precip_clause_threshold precip20_dict 20 rfl).1 (by omega),
   (precip_clause_threshold precip19_dict 19 rfl).2 (by omega)⟩

/-- The parsed dict on which the numeric reading of C6 fails: the
feels-like string `22.0°C` and the max-temp string `22°C` denote the
same number but are different strings. -/
def feels_cex : ParsedDict :=
  { weatherType := chars "Sunny day", maxTemp := chars "22°C"
    feelsLike := chars "22.0°C", windSpeed := chars "10mph"
    windDirection := chars "NW", precipProb := chars "0%" }

/-- Counterexample to C6 as stated: on `feels_cex` the feels-like and
max-temp values are numerically equal (both 22), yet the built report
does contain the `, feels like` clause, because the code (weather.py
line 199) compares the two raw strings with `!=` rather than any
numeric reading. -/
theorem feels_clause_numeric_counterexample :
    numeric_eq (spec_numeric_value feels_cex.feelsLike)
      (spec_numeric_value feels_cex.maxTemp) = true
    ∧ spec_numeric_value feels_cex.feelsLike = some (220, 1)
    ∧ spec_numeric_value feels_cex.maxTemp = some (22, 0)
    ∧ reportHasFeelsClause (build_weather_string feels_cex) = true := by
  refine ⟨by decide, by decide, by decide, by decide⟩

/-- C6 amended: the report carries the `, feels like {f}` clause
exactly when the feels-like string differs from the max-temp string as
a string (the code's `!=` on the raw values), not when it differs
numerically: with identical surrounding parts, the clause is inserted
on textual inequality and omitted on textual equality. -/
theorem feels_clause_iff_strings_differ (d : ParsedDict) (n : Int)
    (h : pyInt (dropPercent d.precipProb) = .ok n) :
    (d.feelsLike ≠ d.maxTemp → build_weather_string d
        = .ok (d.weatherType ++ chars "\n" ++ d.maxTemp ++ chars " max"
               ++ chars ", feels like " ++ d.feelsLike ++ wind_line d
               ++ (if n < 20 then [] else precip_clause d.precipProb)))
    ∧ (d.feelsLike = d.maxTemp → build_weather_string d
        = .ok (d.weatherType ++ chars "\n" ++ d.maxTemp ++ chars " max"
               ++ wind_line d
               ++ (if n < 20 then [] else precip_clause d.precipProb))) := by
  have hc := build_weather_string_closed d n h
  constructor
  · intro hne
    rw [hc, temp_string]
    rw [if_pos hne]
    simp [List.append_assoc]
  · intro heq
    rw [hc, temp_string]
    rw [if_neg (by simp [heq])]
    simp [List.append_assoc]

/-- A parsed dict with textually different feels-like and max-temp
strings. -/
def feels_diff_dict : ParsedDict :=
  { weatherType := chars "Mist", maxTemp := chars "14°C"
    feelsLike := chars "11°C", windSpeed := chars "4mph"
    windDirection := chars "N", precipProb := chars "55%" }

/-- Witness for the amended C6: the clause is present on textually
different values, absent on textually equal ones. -/
theorem feels_clause_iff_strings_differ_witness :
    build_weather_string feels_diff_dict
      = .ok (feels_diff_dict.weatherType ++ chars "\n"
             ++ feels_diff_dict.maxTemp ++ chars " max"
             ++ chars ", feels like " ++ feels_diff_dict.feelsLike
             ++ wind_line feels_diff_dict
             ++ (if (55 : Int) < 20 then []
                 else precip_clause feels_diff_dict.precipProb))
    ∧ build_weather_string precip19_dict
      = .ok (precip19_dict.weatherType ++ chars "\n"
             ++ precip19_dict.maxTemp ++ chars " max"
             ++ wind_line precip19_dict
             ++ (if (19 : Int) < 20 then []
                 else precip_clause precip19_dict.precipProb)) :=
  ⟨(feels_clause_iff_strings_differ feels_diff_dict 55 rfl).1 (by decide),
   (feels_clause_iff_strings_differ precip19_dict 19 rfl).2 rfl⟩

/-- `build_weather_string` propagates a `ValueError` from the
precipitation `int` parse. -/
theorem build_weather_string_err (d : ParsedDict) (e : PyErr)
    (h : pyInt (dropPercent d.precipProb) = .error e) :
    build_weather_string d = .error e := by
  rw [build_weather_string, precip_string]
  rw [show (do
        let n ← pyInt (dropPercent d.precipProb)
        if n < 20 then pure []
        else pure (chars "\n" ++ d.precipProb ++ chars " chance of rain")
        : Except PyErr Str)
      = (pyInt (dropPercent d.precipProb)).bind (fun n =>
          if n < 20 then pure []
          else pure (chars "\n" ++ d.precipProb ++ chars " chance of rain"))
      from rfl, h]
  rfl

/-- C8: every report string that `build_weather_string` returns is
non-empty, and, provided the six field values are themselves free of
format braces, the output contains no brace at all — every placeholder
of the weather template has been resolved. -/
theorem report_nonempty_no_placeholders (d : ParsedDict) (s : Str)
    (h : build_weather_string d = .ok s) :
    s ≠ [] ∧ (fields_brace_free d = true → brace_free s = true) := by
  cases hp : pyInt (dropPercent d.precipProb) with
  | error e =>
    rw [build_weather_string_err d e hp] at h
    exact Except.noConfusion h
  | ok n =>
    have hc := build_weather_string_closed d n hp
    have hs := Except.ok.inj (hc.symm.trans h)
    subst hs
    constructor
    · intro hnil
      have hl := congrArg List.length hnil
      simp only [List.length_append, List.length_nil] at hl
      have h1 : (chars "\n").length = 1 := rfl
      omega
    · intro hbf
      rw [fields_brace_free] at hbf
      simp only [Bool.and_eq_true] at hbf
      obtain ⟨⟨⟨⟨⟨hwt, hmt⟩, hfl⟩, hws⟩, hwd⟩, hpp⟩ := hbf
      have l0 : brace_free [] = true := rfl
      have l1 : brace_free (chars "\n") = true := by decide
      have l2 : brace_free (chars " max") = true := by decide
      have l3 : brace_free (chars ", feels like ") = true := by decide
      have l4 : brace_free (chars "\nWind ") = true := by decide
      have l5 : brace_free (chars " ") = true := by decide
      have l6 : brace_free (chars " chance of rain") = true := by decide
      simp only [temp_string, wind_line, precip_clause]
      split <;> split <;>
        simp [brace_free_append, hwt, hmt, hfl, hws, hwd, hpp,
              l0, l1, l2, l3, l4, l5, l6]

/-- Witness for C8: a concretely built report is non-empty and
brace-free. -/
theorem report_nonempty_no_placeholders_witness :
    build_weather_string precip20_dict
      = .ok (precip20_dict.weatherType ++ chars "\n"
             ++ temp_string precip20_dict ++ wind_line precip20_dict
             ++ (if (20 : Int) < 20 then []
                 else precip_clause precip20_dict.precipProb))
    ∧ (precip20_dict.weatherType ++ chars "\n"
       ++ temp_string precip20_dict ++ wind_line precip20_dict
       ++ (if (20 : Int) < 20 then []
           else precip_clause precip20_dict.precipProb)) ≠ []
    ∧ brace_free (precip20_dict.weatherType ++ chars "\n"
       ++ temp_string precip20_dict ++ wind_line precip20_dict
       ++ (if (20 : Int) < 20 then []
           else precip_clause precip20_dict.precipProb)) = true := by
  have hb : build_weather_string precip20_dict
      = .ok (precip20_dict.weatherType ++ chars "\n"
             ++ temp_string precip20_dict ++ wind_line precip20_dict
             ++ (if (20 : Int) < 20 then []
                 else precip_clause precip20_dict.precipProb)) :=
    build_weather_string_closed precip20_dict 20 rfl
  have hw := report_nonempty_no_placeholders precip20_dict _ hb
  exact ⟨hb, hw.1, hw.2 (by decide)⟩

/-- C7: `select_window` returns a sequence sorted ascending by
timestamp that is a permutation of the forecasts lying in the closed
window `[midnight(start) + 1 day, midnight(start) + num_days days]`; a
forecast is in the result exactly when it is an input lying in that
window, and the empty input yields the empty output without failing. -/
theorem select_window_spec (fs : List ForecastDay) (start : Int) (n : Nat) :
    List.Sorted fdLE (select_window fs start n)
    ∧ (select_window fs start n).Perm (fs.filter (in_window start n))
    ∧ (∀ f, f ∈ select_window fs start n
          ↔ f ∈ fs ∧ in_window start n f = true)
    ∧ select_window [] start n = [] := by
  refine ⟨?_, ?_, ?_, rfl⟩
  · exact (List.sorted_insertionSort fdLE fs).filter _
  · exact (List.perm_insertionSort fdLE fs).filter _
  · intro f
    rw [select_window, List.mem_filter, List.mem_insertionSort]

/-- C9: `parse_lastmodified` rewrites the `GMT` token to `UTC` before
parsing, so the example header parses to the UTC instant
2017-05-29T20:51:00Z (epoch second 1496091060) regardless of how the
platform's local zone would have interpreted a bare `GMT`. -/
theorem parse_lastmodified_gmt_normalized :
    ∀ gmtOffset : Int,
      replaceGMT (chars "Mon, 29 May 2017 20:51:00 GMT")
        = chars "Mon, 29 May 2017 20:51:00 UTC"
      ∧ parse_lastmodified gmtOffset (chars "Mon, 29 May 2017 20:51:00 GMT")
          = some (utc_epoch 2017 5 29 20 51 0)
      ∧ utc_epoch 2017 5 29 20 51 0 = 1496091060 :=
  fun _ => ⟨rfl, rfl, by decide⟩

/-- C10: for every run date, `date_list` holds exactly tomorrow's date
rendered as ISO `YYYY-MM-DD` plus the suffix `T00:00:00Z` — and, when
the run date is a Friday (weekday 4), additionally the day after
tomorrow, in that order. -/
theorem date_list_tomorrow_and_friday (today : Int) :
    (weekday today ≠ 4 →
      date_list today = [isoformat (today + 1) ++ chars "T00:00:00Z"])
    ∧ (weekday today = 4 →
      date_list today = [isoformat (today + 1) ++ chars "T00:00:00Z",
                         isoformat (today + 2) ++ chars "T00:00:00Z"]) := by
  constructor
  · intro hne
    rw [date_list]
    show (if weekday today = 4 then _ else _) = _
    rw [if_neg hne]
    rfl
  · intro heq
    rw [date_list]
    show (if weekday today = 4 then _ else _) = _
    rw [if_pos heq]
    rfl

/-- Witness for C10: 1970-01-01 (day 0, a Thursday) yields one entry,
1970-01-02 (day 1, a Friday) yields the Saturday and Sunday entries in
order. -/
theorem date_list_tomorrow_and_friday_witness :
    date_list 0 = [isoformat 1 ++ chars "T00:00:00Z"]
    ∧ date_list 1 = [isoformat 2 ++ chars "T00:00:00Z",
                     isoformat 3 ++ chars "T00:00:00Z"] :=
  ⟨(date_list_tomorrow_and_friday 0).1 (by decide),
   (date_list_tomorrow_and_friday 1).2 (by decide)⟩

/-- Witness for C2: at a concrete transport and concrete arguments,
both fetchers yield `NameError` with an empty request trace. -/
theorem fetch_raises_nameError_before_request_witness :
    fetch_forecast weather_api_key c4_http_empty (chars "352409")
      (chars "2017-05-30T00:00:00Z") = (.error .nameError, [])
    ∧ fetch_uk_outlook weather_api_key c4_http_empty
      = (.error .nameError, []) :=
  ⟨fetch_raises_nameError_before_request.2.2.1 c4_http_empty
     (chars "352409") (chars "2017-05-30T00:00:00Z"),
   fetch_raises_nameError_before_request.2.2.2 c4_http_empty⟩

/-- Witness for C7: a concrete out-of-order list with one forecast in
the window. -/
theorem select_window_spec_witness :
    List.Sorted fdLE
      (select_window [⟨200000⟩, ⟨86400⟩, ⟨400000⟩] 3600 2)
    ∧ (select_window [⟨200000⟩, ⟨86400⟩, ⟨400000⟩] 3600 2).Perm
        ([⟨200000⟩, ⟨86400⟩, ⟨400000⟩].filter (in_window 3600 2))
    ∧ select_window ([] : List ForecastDay) 3600 2 = [] :=
  ⟨(select_window_spec [⟨200000⟩, ⟨86400⟩, ⟨400000⟩] 3600 2).1,
   (select_window_spec [⟨200000⟩, ⟨86400⟩, ⟨400000⟩] 3600 2).2.1,
   (select_window_spec [⟨200000⟩, ⟨86400⟩, ⟨400000⟩] 3600 2).2.2.2⟩

/-- Witness for C9: at the concrete British-Summer-Time local offset
3600, the example header still parses to the UTC instant. -/
theorem parse_lastmodified_gmt_normalized_witness :
    parse_lastmodified 3600 (chars "Mon, 29 May 2017 20:51:00 GMT")
      = some (utc_epoch 2017 5 29 20 51 0) :=
  (parse_lastmodified_gmt_normalized 3600).2.1

end Weather
